import Mathlib

/-!
Shallow embedding of `radextractor.py` (pDTI repository), the atlas-projection
and metric-extraction pipeline.  Voxel values of a floating-point volume are
modelled as `Option ℚ`: `none` stands for IEEE NaN (every ordered comparison
with it is false), `some q` for a finite value.  Volumes are modelled as their
flattened voxel lists, exactly the shape in which the code indexes them
(`data[(mask_data > 0.5) & (data > 0)]` flattens both arrays in lockstep).
-/

set_option autoImplicit false

namespace RadExtractor

/-- A voxel value: `none` is NaN, `some q` a finite float (modelled as ℚ). -/
abbrev Val := Option ℚ

/-- IEEE comparison `v > c`: false whenever `v` is NaN, as in numpy. -/
def valGt (v : Val) (c : ℚ) : Bool :=
  match v with
  | none => false
  | some q => decide (c < q)

/-- Drop the NaN entries, keeping the finite values (what `np.nan*` reducers
aggregate over). -/
def stripNaN (xs : List Val) : List ℚ :=
  xs.filterMap id

/-- Whether the list contains a NaN entry. -/
def hasNaN (xs : List Val) : Bool :=
  xs.any (· == none)

/-- Arithmetic mean of finite values; NaN on the empty list (numpy's
`np.mean([])` result). -/
def qmean (l : List ℚ) : Val :=
  if l.isEmpty then none else some (l.sum / (l.length : ℚ))

/-- Population variance (ddof = 0), the square of `np.std`.  The code stores
`np.nanstd(vals)`, i.e. the square root of this quantity; the square root is
irrational in general and strictly monotone, so every selection/NaN property
of the std statistic is captured at the variance level. -/
def qvar (l : List ℚ) : Val :=
  match qmean l with
  | none => none
  | some m => some ((l.map (fun x => (x - m) ^ 2)).sum / (l.length : ℚ))

/-- Minimum of a list of finite values; NaN when empty. -/
def qminList (l : List ℚ) : Val :=
  match l with
  | [] => none
  | x :: xs => some (xs.foldl min x)

/-- Maximum of a list of finite values; NaN when empty. -/
def qmaxList (l : List ℚ) : Val :=
  match l with
  | [] => none
  | x :: xs => some (xs.foldl max x)

/-- Insert into a sorted list (ascending). -/
def insSorted (x : ℚ) : List ℚ → List ℚ
  | [] => [x]
  | y :: ys => if x ≤ y then x :: y :: ys else y :: insSorted x ys

/-- Insertion sort, ascending. -/
def qsort (l : List ℚ) : List ℚ :=
  l.foldr insSorted []

/-- Median of a list of finite values, numpy convention: middle element of the
sorted list for odd length, average of the two middle elements for even
length; NaN when empty. -/
def qmedian (l : List ℚ) : Val :=
  let s := qsort l
  let n := s.length
  if n = 0 then none
  else if n % 2 = 1 then some (s.getD (n / 2) 0)
  else some ((s.getD (n / 2 - 1) 0 + s.getD (n / 2) 0) / 2)

/-- `np.nanmean`: mean over the non-NaN entries (NaN if none remain). -/
def nanmean (xs : List Val) : Val :=
  qmean (stripNaN xs)

/-- Square of `np.nanstd`: population variance over the non-NaN entries. -/
def nanstdSq (xs : List Val) : Val :=
  qvar (stripNaN xs)

/-- `np.nanmin`: minimum over the non-NaN entries (NaN if none remain). -/
def nanmin (xs : List Val) : Val :=
  qminList (stripNaN xs)

/-- `np.nanmax`: maximum over the non-NaN entries (NaN if none remain). -/
def nanmax (xs : List Val) : Val :=
  qmaxList (stripNaN xs)

/-- `np.median`: NaN as soon as the input contains a NaN, otherwise the plain
median. -/
def npMedian (xs : List Val) : Val :=
  if hasNaN xs then none else qmedian (stripNaN xs)

/-- `np.nanmedian`: median over the non-NaN entries (NaN if none remain). -/
def nanmedian (xs : List Val) : Val :=
  qmedian (stripNaN xs)

/-- `vals = data[(mask_data > 0.5) & (data > 0)]` (line 138): the data values
at voxels where the resampled mask exceeds 0.5 and the data is positive,
in array order. -/
def selectVals (data mask : List Val) : List Val :=
  (data.zip mask).filterMap
    (fun p => if valGt p.2 (1 / 2) && valGt p.1 0 then some p.1 else none)

/-- Lines 138–143: the five statistics `[mean, std², min, max, median]` of the
selected voxels, or five NaNs when no voxel passes the filter.  (`std` itself
is the square root of the second entry, see `qvar`.) -/
def extract (data mask : List Val) : List Val :=
  let vals := selectVals data mask
  if vals.isEmpty then [none, none, none, none, none]
  else [nanmean vals, nanstdSq vals, nanmin vals, nanmax vals, npMedian vals]

/-- A subject voxel grid: shape triple plus the 16 entries of the 4×4 affine
(row-major).  Line 89 of the code derives from it only the pair
`(shape, affine.sum)`. -/
structure VolumeGrid where
  shape : ℕ × ℕ × ℕ
  affine : List ℚ
deriving DecidableEq

/-- `grid_params = (ref_img.shape, np.sum(ref_img.affine))` (line 89). -/
def gridParams (g : VolumeGrid) : (ℕ × ℕ × ℕ) × ℚ :=
  (g.shape, g.affine.sum)

/-- The interpolation policy accepted by `nilearn.image.resample_img`:
`'nearest'` or the general-purpose default `'continuous'`. -/
inductive Interp where
  | nearest
  | continuous
deriving DecidableEq

/-- A raw atlas volume as loaded by `nib.load`: its flattened voxel data and
its own grid. -/
structure NiftiImage where
  vol : List ℚ
  grid : VolumeGrid
deriving DecidableEq

/-- Modelled from the spec: nearest-neighbor interpolation "assigns each
target voxel the value of its nearest source voxel, preserving discrete
labels" (glossary).  `nilearn.image.resample_img` is an external library; the
geometric nearest-source-index computation from the two affines is abstracted
as the index list `pick` (one source index per target voxel). -/
def resampleNearest (src : List ℚ) (pick : List ℕ) : List ℚ :=
  pick.map (fun i => src.getD i 0)

/-- A geometry oracle: given source grid and target grid, the nearest source
voxel index for each target voxel. -/
abbrev Geo := VolumeGrid → VolumeGrid → List ℕ

/-- One entry of the resample cache: the resampled voxel data, the
interpolation the call used, and the grid it was resampled onto. -/
structure ResampledEntry where
  vol : List ℚ
  interp : Interp
  gridKey : VolumeGrid
deriving DecidableEq

/-- Lines 98–108: resample every named atlas image onto grid `g`, always with
`interpolation='nearest'` (both the ROI loop and the TPM loop pass that
flag). -/
def resampleAll (geo : Geo) (imgs : List (String × NiftiImage)) (g : VolumeGrid) :
    List (String × ResampledEntry) :=
  imgs.map (fun p =>
    (p.1, { vol := resampleNearest p.2.vol (geo p.2.grid g),
            interp := Interp.nearest, gridKey := g }))

/-- Lookup in a Python dict built by successive insertion into an association
list: the latest binding of a key wins (`d[k] = v` overwrites, and
`{**a, **b}` lets `b` override `a`). -/
def dictGet {α : Type} (l : List (String × α)) (k : String) : Option α :=
  match l with
  | [] => none
  | p :: t =>
    match dictGet t k with
    | some v => some v
    | none => if p.1 = k then some p.2 else none

/-- The mutable state threaded through the session loop (lines 76–78):
the two resampled dictionaries and `last_grid_params`. -/
structure CacheState where
  rois : List (String × ResampledEntry)
  tpms : List (String × ResampledEntry)
  lastParams : Option ((ℕ × ℕ × ℕ) × ℚ)
deriving DecidableEq

/-- Initial state: empty dictionaries, `last_grid_params = None` (line 78). -/
def initState : CacheState :=
  { rois := [], tpms := [], lastParams := none }

/-- One session directory as the walker sees it: whether `dwi/` exists, the
grid of the first `*desc-FA_dwi.nii*` file when one exists, and the data
volumes found for each metric type (keyed by `"FA"`, `"MD"`, `"AD"`, `"RD"`). -/
structure Session where
  hasDwiDir : Bool
  refGrid : Option VolumeGrid
  vols : List (String × List Val)
deriving DecidableEq

/-- The metric types requested at line 124. -/
def dtiList : List String := ["FA", "MD", "AD", "RD"]

/-- Line 135–143 applied to every target in `combined_targets`: the results
dictionary in iteration order (region name, five statistics). -/
def extractTable (targets : List (String × ResampledEntry)) (data : List Val) :
    List (String × List Val) :=
  targets.map (fun p => (p.1, extract data p.2.vol))

/-- Result of processing one session: the updated cache state, whether the
atlas set was resampled during this session, and the metric tables written
(one per available metric type). -/
structure StepOut where
  st : CacheState
  resampled : Bool
  tables : List (String × List (String × List Val))
deriving DecidableEq

/-- Lines 82–148, one iteration of the session loop.  A session whose `dwi/`
directory or FA file is missing is skipped (`continue`) before the grid is
read.  Otherwise the grid parameters are compared with `last_grid_params`;
on a mismatch both dictionaries are rebuilt from scratch by resampling every
raw atlas image onto the new grid and the parameters are recorded.  Then for
each metric type whose volume exists, the statistics over
`combined_targets = {**current_resampled_rois, **current_resampled_tpms}`
are extracted. -/
def sessionStep (geo : Geo) (rawMasks rawTpms : List (String × NiftiImage))
    (st : CacheState) (s : Session) : StepOut :=
  match (if s.hasDwiDir then s.refGrid else none) with
  | none => ⟨st, false, []⟩
  | some g =>
    let p := gridParams g
    let pair :=
      if some p ≠ st.lastParams then
        ({ rois := resampleAll geo rawMasks g,
           tpms := resampleAll geo rawTpms g,
           lastParams := some p : CacheState }, true)
      else (st, false)
    let targets := pair.1.rois ++ pair.1.tpms
    let tables := dtiList.filterMap
      (fun d => (dictGet s.vols d).map (fun data => (d, extractTable targets data)))
    ⟨pair.1, pair.2, tables⟩

/-- The loop over all sessions (in traversal order), returning the final
state, the per-session resample flags, and all metric tables written. -/
def runSessions (geo : Geo) (rawMasks rawTpms : List (String × NiftiImage)) :
    CacheState → List Session →
      CacheState × List Bool × List (String × List (String × List Val))
  | st, [] => (st, [], [])
  | st, s :: rest =>
    let o := sessionStep geo rawMasks rawTpms st s
    let r := runSessions geo rawMasks rawTpms o.st rest
    (r.1, o.resampled :: r.2.1, o.tables ++ r.2.2)

/-- `get_clean_name` (line 14): the part of the filename before `.nii`. -/
def getCleanName (s : String) : String :=
  (s.splitOn ".nii").headD s

/-- The atlas directories as the filesystem presents them: `none` means the
directory does not exist (in which case `pathlib.Path.glob` silently yields
no files and raises nothing), `some files` the `(filename, image)` pairs the
glob finds there. -/
structure AtlasFS where
  roiDir : Option (List (String × NiftiImage))
  tpmDir : Option (List (String × NiftiImage))

/-- `pathlib.Path.glob` over a possibly missing directory: empty result when
the directory is absent, never an error. -/
def globDir (d : Option (List (String × NiftiImage))) : List (String × NiftiImage) :=
  match d with
  | none => []
  | some files => files

/-- Lines 66–70: build `raw_masks` (names cleaned and `_thr0` stripped) and
`raw_tpms` (names cleaned) from whatever the two globs return.  No emptiness
or existence check is performed anywhere. -/
def loadAtlas (fs : AtlasFS) :
    List (String × NiftiImage) × List (String × NiftiImage) :=
  ((globDir fs.roiDir).map (fun p => ((getCleanName p.1).replace "_thr0" "", p.2)),
   (globDir fs.tpmDir).map (fun p => (getCleanName p.1, p.2)))

/-- The one way the setup phase can actually die: `deriv_dir.iterdir()`
(line 73) raises `FileNotFoundError` when
`<bids_root>/derivatives/atlas_space-clean` is missing. -/
inductive SetupError where
  | derivMissing
deriving DecidableEq

/-- The inputs of a whole run: the atlas directories, whether the derivatives
directory exists, and the sessions the walker will enumerate. -/
structure RunFS where
  atlas : AtlasFS
  derivExists : Bool
  sessions : List Session

/-- `main` (lines 56–148): load the atlas dictionaries (total, whatever the
directories hold), fail only if the derivatives directory is missing, then
run the session loop. -/
def mainModel (fs : RunFS) (geo : Geo) :
    Except SetupError (CacheState × List Bool × List (String × List (String × List Val))) :=
  let atlas := loadAtlas fs.atlas
  if fs.derivExists then
    Except.ok (runSessions geo atlas.1 atlas.2 initState fs.sessions)
  else
    Except.error SetupError.derivMissing

/-- Process exit code: non-zero exactly when an uncaught exception escapes
`main`. -/
def exitCode {α : Type} (r : Except SetupError α) : ℕ :=
  match r with
  | Except.ok _ => 0
  | Except.error _ => 1

/-! ### Concrete inputs used by witnesses and counterexamples -/

/-- A concrete grid: unit shape, identity-free affine summing to 0. -/
def gA : VolumeGrid :=
  ⟨(1, 1, 1), [0, 0, 0, 0, 0, 0, 0, 0, 0, 0, 0, 0, 0, 0, 0, 0]⟩

/-- A second grid with the same shape but affine sum 1. -/
def gB : VolumeGrid :=
  ⟨(1, 1, 1), [1, 0, 0, 0, 0, 0, 0, 0, 0, 0, 0, 0, 0, 0, 0, 0]⟩

/-- A session with a `dwi/` directory and an FA reference on grid `g`, but no
metric volumes. -/
def sessOf (g : VolumeGrid) : Session :=
  ⟨true, some g, []⟩

/-- A trivial geometry oracle (zero-voxel targets). -/
def geoZero : Geo := fun _ _ => []

/-- A one-voxel atlas image on grid `gA`. -/
def imgA : NiftiImage := ⟨[1], gA⟩

/-- Two concrete resampled entries sharing nothing but being distinct. -/
def entA : ResampledEntry := ⟨[1], Interp.nearest, gA⟩

def entB : ResampledEntry := ⟨[0], Interp.nearest, gA⟩

/-- An atlas filesystem whose tissue-probability subdirectory is missing. -/
def atlasNoTpm : AtlasFS :=
  ⟨some [("Corpus_Callosum_thr0.nii.gz", imgA)], none⟩

/-- A session with a `dwi/` directory but no FA reference volume. -/
def sessNoRef : Session := ⟨true, none, []⟩

/-- A session on grid `gA` carrying a single FA metric volume. -/
def sessFA : Session := ⟨true, some gA, [("FA", [some 2])]⟩

/-- A full-run filesystem: missing TPM directory, existing derivatives
directory, and one session carrying an FA volume. -/
def fsNoTpm : RunFS :=
  ⟨atlasNoTpm, true, [sessFA]⟩

/-! ### Supporting lemmas -/

lemma valGt_eq_true {v : Val} {c : ℚ} : valGt v c = true ↔ ∃ q, v = some q ∧ c < q := by
  cases v <;> simp [valGt]

/-- Every value the filter keeps is finite (not NaN) and positive: a NaN datum
fails `data > 0`, a NaN mask value fails `mask > 0.5`. -/
lemma selectVals_no_nan {data mask : List Val} :
    ∀ v ∈ selectVals data mask, ∃ q : ℚ, v = some q ∧ 0 < q := by
  intro v hv
  rw [selectVals, List.mem_filterMap] at hv
  obtain ⟨p, -, hf⟩ := hv
  by_cases h : (valGt p.2 (1 / 2) && valGt p.1 0) = true
  · rw [if_pos h] at hf
    obtain ⟨-, h1⟩ := Bool.and_eq_true_iff.mp h
    obtain ⟨q, hq, hq0⟩ := valGt_eq_true.mp h1
    have hv : p.1 = v := by simpa using hf
    exact ⟨q, by rw [← hv, hq], hq0⟩
  · rw [if_neg h] at hf
    exact absurd hf (by simp)

lemma hasNaN_selectVals {data mask : List Val} :
    hasNaN (selectVals data mask) = false := by
  rw [hasNaN, List.any_eq_false]
  intro v hv
  obtain ⟨q, hq, -⟩ := selectVals_no_nan v hv
  simp [hq]

lemma mem_selectVals {data mask : List Val} {q : ℚ} :
    some q ∈ selectVals data mask ↔
      ∃ (i : ℕ) (mv : Val), data[i]? = some (some q) ∧ mask[i]? = some mv ∧
        valGt mv (1 / 2) = true ∧ 0 < q := by
  rw [selectVals, List.mem_filterMap]
  constructor
  · rintro ⟨⟨d, mv⟩, hp, hf⟩
    by_cases h : (valGt mv (1 / 2) && valGt d 0) = true
    · rw [if_pos h] at hf
      obtain ⟨hm, hd⟩ := Bool.and_eq_true_iff.mp h
      obtain ⟨i, hi⟩ := List.mem_iff_getElem?.mp hp
      rw [List.getElem?_zip_eq_some] at hi
      obtain ⟨q', hq', hq0⟩ := valGt_eq_true.mp hd
      have hdq : d = some q := by simpa using hf
      refine ⟨i, mv, by simpa [hdq] using hi.1, hi.2, hm, ?_⟩
      rw [hdq] at hq'
      have hqq : q' = q := (Option.some_inj.mp hq').symm
      exact hqq ▸ hq0
    · rw [if_neg h] at hf
      exact absurd hf (by simp)
  · rintro ⟨i, mv, hd, hm, hgt, hq0⟩
    refine ⟨(some q, mv), ?_, ?_⟩
    · exact List.mem_iff_getElem?.mpr ⟨i, List.getElem?_zip_eq_some.mpr ⟨hd, hm⟩⟩
    · have h2 : valGt (some q) 0 = true := by simp [valGt, hq0]
      rw [hgt, h2]
      simp

lemma extract_of_ne_nil {data mask : List Val} (hne : selectVals data mask ≠ []) :
    extract data mask =
      [nanmean (selectVals data mask), nanstdSq (selectVals data mask),
       nanmin (selectVals data mask), nanmax (selectVals data mask),
       npMedian (selectVals data mask)] := by
  rw [extract]
  simp [List.isEmpty_iff, hne]

/-! ### Claim theorems -/

/-- C1: the five statistics `mean, std, min, max, median` are computed over
exactly the voxels where the resampled mask value exceeds 0.5 and the data
value is positive; the first four are numpy's NaN-ignoring reducers, the
median also equals the NaN-ignoring median of the selected voxels, and all
five therefore equal the plain statistics of the NaN-stripped selected
values.  (The second entry is the square of the std, see `qvar`.)  The last
conjunct records that each NaN-aware reducer indeed skips NaN entries. -/
theorem c1_extract_filtered_stats (data mask : List Val)
    (hne : selectVals data mask ≠ []) :
    (∀ q : ℚ, some q ∈ selectVals data mask ↔
      ∃ (i : ℕ) (mv : Val), data[i]? = some (some q) ∧ mask[i]? = some mv ∧
        valGt mv (1 / 2) = true ∧ 0 < q) ∧
    extract data mask =
      [qmean (stripNaN (selectVals data mask)),
       qvar (stripNaN (selectVals data mask)),
       qminList (stripNaN (selectVals data mask)),
       qmaxList (stripNaN (selectVals data mask)),
       qmedian (stripNaN (selectVals data mask))] ∧
    npMedian (selectVals data mask) = nanmedian (selectVals data mask) ∧
    (∀ xs : List Val,
      nanmean (none :: xs) = nanmean xs ∧ nanstdSq (none :: xs) = nanstdSq xs ∧
      nanmin (none :: xs) = nanmin xs ∧ nanmax (none :: xs) = nanmax xs ∧
      nanmedian (none :: xs) = nanmedian xs) := by
  refine ⟨fun q => mem_selectVals, ?_, ?_, ?_⟩
  · rw [extract_of_ne_nil hne]
    simp [nanmean, nanstdSq, nanmin, nanmax, npMedian, nanmedian, hasNaN_selectVals]
  · simp [npMedian, nanmedian, hasNaN_selectVals]
  · intro xs
    simp [nanmean, nanstdSq, nanmin, nanmax, nanmedian, stripNaN]

/-- C1, witness: for `data = [2, NaN, 3, -1]` fully covered by the mask, the
voxels 2 and 3 are selected and the statistics are those of `[2, 3]`. -/
theorem c1_witness :
    selectVals [some 2, none, some 3, some (-1)] [some 1, some 1, some 1, some 1] ≠ [] ∧
    ((∀ q : ℚ, some q ∈ selectVals [some 2, none, some 3, some (-1)]
        [some 1, some 1, some 1, some 1] ↔
      ∃ (i : ℕ) (mv : Val), ([some 2, none, some 3, some (-1)] : List Val)[i]? = some (some q) ∧
        ([some 1, some 1, some 1, some 1] : List Val)[i]? = some mv ∧
        valGt mv (1 / 2) = true ∧ 0 < q) ∧
    extract [some 2, none, some 3, some (-1)] [some 1, some 1, some 1, some 1] =
      [qmean (stripNaN (selectVals [some 2, none, some 3, some (-1)]
          [some 1, some 1, some 1, some 1])),
       qvar (stripNaN (selectVals [some 2, none, some 3, some (-1)]
          [some 1, some 1, some 1, some 1])),
       qminList (stripNaN (selectVals [some 2, none, some 3, some (-1)]
          [some 1, some 1, some 1, some 1])),
       qmaxList (stripNaN (selectVals [some 2, none, some 3, some (-1)]
          [some 1, some 1, some 1, some 1])),
       qmedian (stripNaN (selectVals [some 2, none, some 3, some (-1)]
          [some 1, some 1, some 1, some 1]))] ∧
    npMedian (selectVals [some 2, none, some 3, some (-1)]
        [some 1, some 1, some 1, some 1]) =
      nanmedian (selectVals [some 2, none, some 3, some (-1)]
        [some 1, some 1, some 1, some 1]) ∧
    (∀ xs : List Val,
      nanmean (none :: xs) = nanmean xs ∧ nanstdSq (none :: xs) = nanstdSq xs ∧
      nanmin (none :: xs) = nanmin xs ∧ nanmax (none :: xs) = nanmax xs ∧
      nanmedian (none :: xs) = nanmedian xs)) :=
  ⟨by
    have h : selectVals [some 2, none, some 3, some (-1)]
        [some 1, some 1, some 1, some 1] = [some 2, some 3] := by
      norm_num [selectVals, valGt, List.filterMap_cons]
    simp [h],
   c1_extract_filtered_stats _ _ (by
    have h : selectVals [some 2, none, some 3, some (-1)]
        [some 1, some 1, some 1, some 1] = [some 2, some 3] := by
      norm_num [selectVals, valGt, List.filterMap_cons]
    simp [h])⟩

/-- C4: when no voxel passes the `mask > 0.5 ∧ data > 0` filter, all five
statistics are the NaN sentinel; and extraction is total, always returning a
five-entry row (never an error). -/
theorem c4_empty_selection (data mask : List Val)
    (h : selectVals data mask = []) :
    extract data mask = [none, none, none, none, none] ∧
    (∀ d m : List Val, (extract d m).length = 5) := by
  refine ⟨?_, ?_⟩
  · rw [extract]
    simp [h]
  · intro d m
    rw [extract]
    by_cases hdm : (selectVals d m).isEmpty <;> simp [hdm]

/-- C4, witness: a positive datum masked out by a zero mask value. -/
theorem c4_witness :
    selectVals [some 2] [some 0] = [] ∧
    (extract [some 2] [some 0] = [none, none, none, none, none] ∧
      (∀ d m : List Val, (extract d m).length = 5)) :=
  ⟨by norm_num [selectVals, valGt],
   c4_empty_selection _ _ (by norm_num [selectVals, valGt])⟩

/-- C9: the filtered voxel set never contains NaN (a NaN datum fails
`data > 0`, a NaN mask value fails `mask > 0.5`), every selected value is a
positive finite number, and consequently the plain `np.median` the code uses
coincides with the NaN-ignoring median on the selected set. -/
theorem c9_selection_nan_free (data mask : List Val) :
    (∀ v ∈ selectVals data mask, ∃ q : ℚ, v = some q ∧ 0 < q) ∧
    hasNaN (selectVals data mask) = false ∧
    npMedian (selectVals data mask) = nanmedian (selectVals data mask) := by
  refine ⟨selectVals_no_nan, hasNaN_selectVals, ?_⟩
  simp [npMedian, nanmedian, hasNaN_selectVals]

lemma sessionStep_skip {geo : Geo} {a b : List (String × NiftiImage)}
    {st : CacheState} {s : Session} (h : s.hasDwiDir = false ∨ s.refGrid = none) :
    sessionStep geo a b st s = ⟨st, false, []⟩ := by
  rcases h with h | h
  · simp [sessionStep, h]
  · cases hb : s.hasDwiDir <;> simp [sessionStep, hb, h]

/-- Whether or not the grid comparison triggered a resample, after a
processed session the recorded parameters are the session's. -/
lemma sessionStep_lastParams {geo : Geo} {a b : List (String × NiftiImage)}
    {st : CacheState} {s : Session} {g : VolumeGrid}
    (h1 : s.hasDwiDir = true) (h2 : s.refGrid = some g) :
    (sessionStep geo a b st s).st.lastParams = some (gridParams g) := by
  simp only [sessionStep, h1, h2, if_true]
  by_cases h : some (gridParams g) ≠ st.lastParams
  · simp [h]
  · push_neg at h
    simp [h]

lemma sessionStep_resampled_iff {geo : Geo} {a b : List (String × NiftiImage)}
    {st : CacheState} {s : Session} {g : VolumeGrid}
    (h1 : s.hasDwiDir = true) (h2 : s.refGrid = some g) :
    (sessionStep geo a b st s).resampled = true ↔
      st.lastParams ≠ some (gridParams g) := by
  simp only [sessionStep, h1, h2, if_true]
  by_cases h : some (gridParams g) ≠ st.lastParams
  · simp [h]
    exact h.symm
  · push_neg at h
    simp [h]

lemma sessionStep_no_resample {geo : Geo} {a b : List (String × NiftiImage)}
    {st : CacheState} {s : Session} {g : VolumeGrid}
    (h1 : s.hasDwiDir = true) (h2 : s.refGrid = some g)
    (h : st.lastParams = some (gridParams g)) :
    (sessionStep geo a b st s).st = st ∧
    (sessionStep geo a b st s).resampled = false := by
  simp [sessionStep, h1, h2, h]

/-- C5: two grids compare equal for the cache exactly when their shapes match
and their affine entry sums match; and a processed session triggers a
resample exactly when its `(shape, affine-sum)` pair differs from the
recorded `last_grid_params`. -/
theorem c5_grid_equality (g1 g2 : VolumeGrid) :
    (gridParams g1 = gridParams g2 ↔
      g1.shape = g2.shape ∧ g1.affine.sum = g2.affine.sum) ∧
    (∀ (geo : Geo) (a b : List (String × NiftiImage)) (st : CacheState)
      (s : Session), s.hasDwiDir = true → s.refGrid = some g1 →
        ((sessionStep geo a b st s).resampled = true ↔
          st.lastParams ≠ some (g1.shape, g1.affine.sum))) := by
  refine ⟨by simp [gridParams, Prod.ext_iff], ?_⟩
  intro geo a b st s h1 h2
  exact sessionStep_resampled_iff h1 h2

/-- C5, witness: from the initial state (no recorded grid) session `gA`
triggers a resample. -/
theorem c5_witness :
    ((sessOf gA).hasDwiDir = true) ∧ ((sessOf gA).refGrid = some gA) ∧
    (((sessionStep geoZero [] [] initState (sessOf gA)).resampled = true ↔
      initState.lastParams ≠ some (gA.shape, gA.affine.sum))) :=
  ⟨rfl, rfl,
   (c5_grid_equality gA gA).2 geoZero [] [] initState (sessOf gA) rfl rfl⟩

/-- C6: on a grid change the whole cached set (ROIs and TPMs) is rebuilt by
resampling every raw atlas image onto the new grid — the new dictionaries
are a function of the raw atlas and the new grid alone, every new entry is
keyed to the new grid, and the new grid's parameters are recorded.  No entry
of the previous cache survives in them. -/
theorem c6_cache_replaced (geo : Geo) (a b : List (String × NiftiImage))
    (st : CacheState) (s : Session) (g : VolumeGrid)
    (h1 : s.hasDwiDir = true) (h2 : s.refGrid = some g)
    (htrig : some (gridParams g) ≠ st.lastParams) :
    (sessionStep geo a b st s).st.rois = resampleAll geo a g ∧
    (sessionStep geo a b st s).st.tpms = resampleAll geo b g ∧
    (∀ p ∈ (sessionStep geo a b st s).st.rois, p.2.gridKey = g) ∧
    (∀ p ∈ (sessionStep geo a b st s).st.tpms, p.2.gridKey = g) ∧
    (sessionStep geo a b st s).st.lastParams = some (gridParams g) := by
  have hr : (sessionStep geo a b st s).st.rois = resampleAll geo a g := by
    simp [sessionStep, h1, h2, htrig]
  have ht : (sessionStep geo a b st s).st.tpms = resampleAll geo b g := by
    simp [sessionStep, h1, h2, htrig]
  refine ⟨hr, ht, ?_, ?_, sessionStep_lastParams h1 h2⟩
  · rw [hr]
    intro p hp
    simp only [resampleAll, List.mem_map] at hp
    obtain ⟨q, -, hq⟩ := hp
    rw [← hq]
  · rw [ht]
    intro p hp
    simp only [resampleAll, List.mem_map] at hp
    obtain ⟨q, -, hq⟩ := hp
    rw [← hq]

/-- C6, witness: the first processed session replaces the (empty) initial
cache with the atlas resampled onto its grid. -/
theorem c6_witness :
    (sessionStep geoZero [("R", imgA)] [("T", imgA)] initState (sessOf gA)).st.rois
        = resampleAll geoZero [("R", imgA)] gA ∧
    (sessionStep geoZero [("R", imgA)] [("T", imgA)] initState (sessOf gA)).st.tpms
        = resampleAll geoZero [("T", imgA)] gA ∧
    (∀ p ∈ (sessionStep geoZero [("R", imgA)] [("T", imgA)] initState
        (sessOf gA)).st.rois, p.2.gridKey = gA) ∧
    (∀ p ∈ (sessionStep geoZero [("R", imgA)] [("T", imgA)] initState
        (sessOf gA)).st.tpms, p.2.gridKey = gA) ∧
    (sessionStep geoZero [("R", imgA)] [("T", imgA)] initState
        (sessOf gA)).st.lastParams = some (gridParams gA) :=
  c6_cache_replaced geoZero [("R", imgA)] [("T", imgA)] initState (sessOf gA) gA
    rfl rfl (by simp [initState])

/-- C2, counterexample: the cache records only the last grid.  In the run
`[gA, gB, gA]` the first and third sessions have the identical grid `gA`
(indeed the identical session value), yet the resample trace is
`[true, true, true]`: the atlas is resampled at both of them (twice across
the pair), refuting "at most once across both" for non-consecutive
sessions. -/
theorem c2_counterexample :
    sessOf gA = sessOf gA ∧ gridParams gA ≠ gridParams gB ∧
    (runSessions geoZero [] [] initState
      [sessOf gA, sessOf gB, sessOf gA]).2.1 = [true, true, true] := by
  refine ⟨rfl, ?_, ?_⟩
  · simp [gridParams, gA, gB, Prod.ext_iff]
  · simp [runSessions, sessionStep, initState, sessOf, gA, gB, gridParams,
      resampleAll, dtiList, dictGet, Prod.ext_iff]

/-- C2, amended: for two *consecutively processed* sessions whose
`(shape, affine-sum)` grid parameters are equal, the atlas set is resampled
at most once across both — the second session performs no Stale→Valid
transition and its extraction reads the cache left by the first. -/
theorem c2_consecutive_cache_hit (geo : Geo) (a b : List (String × NiftiImage))
    (st : CacheState) (s1 s2 : Session) (gx gy : VolumeGrid)
    (h1 : s1.hasDwiDir = true) (h2 : s1.refGrid = some gx)
    (h3 : s2.hasDwiDir = true) (h4 : s2.refGrid = some gy)
    (heq : gridParams gx = gridParams gy) :
    (sessionStep geo a b (sessionStep geo a b st s1).st s2).resampled = false ∧
    (sessionStep geo a b (sessionStep geo a b st s1).st s2).st
      = (sessionStep geo a b st s1).st ∧
    (cond (sessionStep geo a b st s1).resampled 1 0) +
      (cond (sessionStep geo a b (sessionStep geo a b st s1).st s2).resampled 1 0)
      ≤ 1 := by
  have hlast : (sessionStep geo a b st s1).st.lastParams = some (gridParams gy) := by
    rw [sessionStep_lastParams h1 h2, heq]
  obtain ⟨hst, hres⟩ := sessionStep_no_resample h3 h4 hlast
  refine ⟨hres, hst, ?_⟩
  rw [hres]
  cases (sessionStep geo a b st s1).resampled <;> simp

/-- C2, witness: two back-to-back sessions on grid `gA`: the first resamples,
the second reads the cache. -/
theorem c2_witness :
    (sessOf gA).hasDwiDir = true ∧ (sessOf gA).refGrid = some gA ∧
    gridParams gA = gridParams gA ∧
    ((sessionStep geoZero [] [] (sessionStep geoZero [] [] initState
        (sessOf gA)).st (sessOf gA)).resampled = false ∧
    (sessionStep geoZero [] [] (sessionStep geoZero [] [] initState
        (sessOf gA)).st (sessOf gA)).st
      = (sessionStep geoZero [] [] initState (sessOf gA)).st ∧
    (cond (sessionStep geoZero [] [] initState (sessOf gA)).resampled 1 0) +
      (cond (sessionStep geoZero [] [] (sessionStep geoZero [] [] initState
        (sessOf gA)).st (sessOf gA)).resampled 1 0) ≤ 1) :=
  ⟨rfl, rfl, rfl,
   c2_consecutive_cache_hit geoZero [] [] initState (sessOf gA) (sessOf gA)
     gA gA rfl rfl rfl rfl rfl⟩

/-- C7: every cache entry the pipeline builds — `resampleAll` is the sole
constructor of resampled entries, used for the ROI loop and the TPM loop
alike — records nearest-neighbor interpolation; and a nearest-neighbor
resampled volume contains only values taken from the source volume (no
interpolated intermediate values), provided every picked source index is in
range. -/
theorem c7_nearest_only (geo : Geo) (imgs : List (String × NiftiImage))
    (g : VolumeGrid) (src : List ℚ) (pick : List ℕ)
    (hpick : ∀ i ∈ pick, i < src.length) :
    (∀ p ∈ resampleAll geo imgs g, p.2.interp = Interp.nearest) ∧
    (∀ v ∈ resampleNearest src pick, v ∈ src) := by
  constructor
  · intro p hp
    simp only [resampleAll, List.mem_map] at hp
    obtain ⟨q, -, hq⟩ := hp
    rw [← hq]
  · intro v hv
    simp only [resampleNearest, List.mem_map] at hv
    obtain ⟨i, hi, hval⟩ := hv
    have hlt := hpick i hi
    rw [← hval, List.getD_eq_getElem _ _ hlt]
    exact List.getElem_mem hlt

/-- C7, witness: a two-label source `[5, 7]` resampled through the index map
`[1, 0, 1]` yields only the labels 5 and 7. -/
theorem c7_witness :
    (∀ i ∈ ([1, 0, 1] : List ℕ), i < ([5, 7] : List ℚ).length) ∧
    ((∀ p ∈ resampleAll geoZero [("R", imgA)] gA, p.2.interp = Interp.nearest) ∧
     (∀ v ∈ resampleNearest [5, 7] [1, 0, 1], v ∈ ([5, 7] : List ℚ))) :=
  ⟨by decide,
   c7_nearest_only geoZero [("R", imgA)] gA [5, 7] [1, 0, 1] (by decide)⟩

lemma filterMap_pair_names {α β γ : Type} (l : List α) (f : α → Option β)
    (g : α → β → γ) :
    (l.filterMap (fun d => (f d).map (fun x => (d, g d x)))).map Prod.fst
      = l.filter (fun d => (f d).isSome) := by
  induction l with
  | nil => rfl
  | cons d t ih => cases hf : f d <;> simp [hf, ih]

/-- The tables of a processed session, in terms of its own cache. -/
lemma sessionStep_tables {geo : Geo} {a b : List (String × NiftiImage)}
    {st : CacheState} {s : Session} {g : VolumeGrid}
    (h1 : s.hasDwiDir = true) (h2 : s.refGrid = some g) :
    (sessionStep geo a b st s).tables
      = dtiList.filterMap (fun d => (dictGet s.vols d).map (fun data =>
          (d, extractTable ((sessionStep geo a b st s).st.rois
                ++ (sessionStep geo a b st s).st.tpms) data))) := by
  simp only [sessionStep, h1, h2, if_true]

/-- C8: (1) a session whose `dwi/` directory or FA reference volume is
missing is skipped entirely: deleting it from the traversal changes neither
the final cache state nor any table written for the other sessions; (2) in a
processed session the tables written are exactly those of the metric types
whose volume is present — a missing metric type skips only itself, and each
available metric type's table is produced from its own volume against the
current cache regardless of the other metric types. -/
theorem c8_failure_isolation (geo : Geo) (a b : List (String × NiftiImage))
    (st : CacheState) (pre post : List Session) (s : Session)
    (hskip : s.hasDwiDir = false ∨ s.refGrid = none) :
    ((runSessions geo a b st (pre ++ s :: post)).1
        = (runSessions geo a b st (pre ++ post)).1 ∧
     (runSessions geo a b st (pre ++ s :: post)).2.2
        = (runSessions geo a b st (pre ++ post)).2.2) ∧
    (∀ (st' : CacheState) (s' : Session) (g : VolumeGrid),
      s'.hasDwiDir = true → s'.refGrid = some g →
        ((sessionStep geo a b st' s').tables.map Prod.fst
            = dtiList.filter (fun d => (dictGet s'.vols d).isSome)) ∧
        (∀ (d : String) (data : List Val), dictGet s'.vols d = some data →
          d ∈ dtiList →
            (d, extractTable ((sessionStep geo a b st' s').st.rois
                ++ (sessionStep geo a b st' s').st.tpms) data)
              ∈ (sessionStep geo a b st' s').tables)) := by
  constructor
  · induction pre generalizing st with
    | nil =>
      simp [runSessions, sessionStep_skip hskip]
    | cons p t ih =>
      simp only [List.cons_append, runSessions]
      obtain ⟨ih1, ih2⟩ := ih (sessionStep geo a b st p).st
      exact ⟨ih1, congrArg (fun x => (sessionStep geo a b st p).tables ++ x) ih2⟩
  · intro st' s' g h1 h2
    rw [sessionStep_tables h1 h2]
    constructor
    · exact filterMap_pair_names dtiList (fun d => dictGet s'.vols d) _
    · intro d data hdict hdti
      rw [List.mem_filterMap]
      exact ⟨d, hdti, by rw [hdict]; rfl⟩

/-- C8, witness: dropping a session with no FA volume from the middle of a
run leaves state and outputs unchanged, and a session holding only an FA
volume writes exactly the FA table. -/
theorem c8_witness :
    (sessNoRef.hasDwiDir = false ∨ sessNoRef.refGrid = none) ∧
    (((runSessions geoZero [] [] initState ([sessOf gA] ++ sessNoRef :: [sessFA])).1
        = (runSessions geoZero [] [] initState ([sessOf gA] ++ [sessFA])).1 ∧
      (runSessions geoZero [] [] initState ([sessOf gA] ++ sessNoRef :: [sessFA])).2.2
        = (runSessions geoZero [] [] initState ([sessOf gA] ++ [sessFA])).2.2) ∧
    (∀ (st' : CacheState) (s' : Session) (g : VolumeGrid),
      s'.hasDwiDir = true → s'.refGrid = some g →
        ((sessionStep geoZero [] [] st' s').tables.map Prod.fst
            = dtiList.filter (fun d => (dictGet s'.vols d).isSome)) ∧
        (∀ (d : String) (data : List Val), dictGet s'.vols d = some data →
          d ∈ dtiList →
            (d, extractTable ((sessionStep geoZero [] [] st' s').st.rois
                ++ (sessionStep geoZero [] [] st' s').st.tpms) data)
              ∈ (sessionStep geoZero [] [] st' s').tables))) :=
  ⟨Or.inr rfl,
   c8_failure_isolation geoZero [] [] initState [sessOf gA] [sessFA] sessNoRef
     (Or.inr rfl)⟩

lemma dictGet_append {α : Type} (a b : List (String × α)) (k : String) :
    dictGet (a ++ b) k =
      match dictGet b k with
      | some v => some v
      | none => dictGet a k := by
  induction a with
  | nil =>
    cases h : dictGet b k <;> simp [dictGet, h]
  | cons p t ih =>
    rw [List.cons_append, dictGet, ih]
    cases h : dictGet b k <;> cases h2 : dictGet t k <;> simp [dictGet, h, h2]

lemma dictGet_mapVals {α β : Type} (f : α → β) (l : List (String × α)) (k : String) :
    dictGet (l.map (fun p => (p.1, f p.2))) k = (dictGet l k).map f := by
  induction l with
  | nil => rfl
  | cons p t ih =>
    rw [List.map_cons, dictGet, ih, dictGet]
    cases h : dictGet t k <;> simp

/-- C10: in the merged namespace `{**rois, **tpms}` the TPM binding wins
every name collision, so the statistics recorded in the results table under
a name present in both dictionaries are those extracted with the
tissue-probability map's volume, never the ROI mask's. -/
theorem c10_tpm_overrides_roi (rois tpms : List (String × ResampledEntry))
    (data : List Val) (n : String) (e : ResampledEntry)
    (h : dictGet tpms n = some e) :
    dictGet (rois ++ tpms) n = some e ∧
    dictGet (extractTable (rois ++ tpms) data) n = some (extract data e.vol) := by
  constructor
  · rw [dictGet_append, h]
  · rw [extractTable, dictGet_mapVals (fun r => extract data r.vol) (rois ++ tpms) n,
      dictGet_append, h]
    rfl

/-- C10, witness: the name "X" bound to `entA` among the ROIs and to `entB`
among the TPMs resolves to `entB`'s statistics. -/
theorem c10_witness :
    dictGet [("X", entB)] "X" = some entB ∧
    (dictGet ([("X", entA)] ++ [("X", entB)]) "X" = some entB ∧
     dictGet (extractTable ([("X", entA)] ++ [("X", entB)]) [some 2]) "X"
        = some (extract [some 2] entB.vol)) :=
  ⟨by simp [dictGet],
   c10_tpm_overrides_roi [("X", entA)] [("X", entB)] [some 2] "X" entB
     (by simp [dictGet])⟩

/-- C3, counterexample: with the tissue-probability subdirectory missing
entirely, `main` raises nothing: the glob yields no files, the TPM
dictionary is empty, the one session is still processed (its FA metric table
is produced) and the process exits with code zero — there is no
`AtlasLoadError`/`SetupError` anywhere in the load path. -/
theorem c3_counterexample :
    fsNoTpm.atlas.tpmDir = none ∧
    exitCode (mainModel fsNoTpm geoZero) = 0 ∧
    (loadAtlas fsNoTpm.atlas).2 = [] ∧
    (mainModel fsNoTpm geoZero).toOption.map (fun r => r.2.2.map Prod.fst)
      = some ["FA"] := by
  refine ⟨rfl, rfl, rfl, ?_⟩
  simp [mainModel, fsNoTpm, atlasNoTpm, loadAtlas, globDir, getCleanName,
    runSessions, sessionStep, initState, sessFA, gridParams, gA,
    resampleAll, dtiList, dictGet, Prod.ext_iff, imgA, Except.toOption,
    List.filterMap_cons]

/-- C3, amended: atlas loading cannot fail.  A missing region-of-interest or
tissue-probability subdirectory silently yields an empty dictionary of that
kind (`pathlib.Path.glob` of a missing directory is empty, and the code
checks nothing), and as long as the derivatives directory exists the run
processes every session and exits with code zero. -/
theorem c3_amended_no_load_error (afs : AtlasFS) (sessions : List Session)
    (geo : Geo)
    (hroi : afs.roiDir = none) (htpm : afs.tpmDir = none) :
    (loadAtlas afs).1 = [] ∧ (loadAtlas afs).2 = [] ∧
    mainModel ⟨afs, true, sessions⟩ geo =
      Except.ok (runSessions geo (loadAtlas afs).1 (loadAtlas afs).2
        initState sessions) ∧
    exitCode (mainModel ⟨afs, true, sessions⟩ geo) = 0 := by
  refine ⟨?_, ?_, ?_, ?_⟩
  · simp [loadAtlas, hroi, globDir]
  · simp [loadAtlas, htpm, globDir]
  · rfl
  · rfl

/-- C3, amended witness: both atlas subdirectories missing, one session. -/
theorem c3_amended_witness :
    (⟨none, none⟩ : AtlasFS).roiDir = none ∧
    (⟨none, none⟩ : AtlasFS).tpmDir = none ∧
    ((loadAtlas ⟨none, none⟩).1 = [] ∧ (loadAtlas ⟨none, none⟩).2 = [] ∧
     mainModel ⟨⟨none, none⟩, true, [sessFA]⟩ geoZero =
       Except.ok (runSessions geoZero (loadAtlas ⟨none, none⟩).1
         (loadAtlas ⟨none, none⟩).2 initState [sessFA]) ∧
     exitCode (mainModel ⟨⟨none, none⟩, true, [sessFA]⟩ geoZero) = 0) :=
  ⟨rfl, rfl, c3_amended_no_load_error ⟨none, none⟩ [sessFA] geoZero rfl rfl⟩

end RadExtractor

